import Mathlib

/-!
Shallow embedding of the pNodes monitoring dashboard's core pipeline
(node normalization, gossip discovery with seed fallback, deduplication,
tiered caching, background stats enrichment, and the analytics/health
metric derivation), together with theorems settling the specification
claims about it.

JavaScript numbers are modelled as rationals (ℚ); `Math.floor` is `Int.floor`
and `Math.round` is `⌊x + 1/2⌋` (JS rounds half toward +∞). NaN/Infinity and
double rounding are outside the model. Optional / possibly-`undefined` fields
are `Option` values, and JS truthiness on them is made explicit.
-/

/-- JS `Math.min` on two numbers (NaN aside). Defined by an explicit
comparison so that the kernel can evaluate it on concrete rationals. -/
def jsMin (a b : ℚ) : ℚ := if a ≤ b then a else b

/-- JS `Math.max` on two numbers. -/
def jsMax (a b : ℚ) : ℚ := if b ≤ a then a else b

/-- JS `Math.floor`, via the executable `Rat.floor`. -/
def jsFloor (q : ℚ) : ℤ := q.floor

/-- JS `Math.round`: rounds half toward +∞, i.e. `⌊x + 1/2⌋`. -/
def jsRound (q : ℚ) : ℤ := jsFloor (q + 1/2)

/-- `Math.round(x * 100) / 100`, the two-decimal rounding used throughout
the analytics code. -/
def round2 (q : ℚ) : ℚ := (jsRound (q * 100) : ℚ) / 100

/-- JS truthiness of a possibly-`undefined` number: present and nonzero. -/
def numTruthy (o : Option ℚ) : Bool :=
  match o with
  | some v => v ≠ 0
  | none => false

/-- JS `s || d` for a possibly-`undefined` string: `d` when missing or empty. -/
def strOr (o : Option String) (d : String) : String :=
  match o with
  | some s => if s = "" then d else s
  | none => d

/-- JS `v || 0` for a possibly-`undefined` number (`some 0` and `none` both
give `0`). -/
def numOr0 (o : Option ℚ) : ℚ := o.getD 0

/-- Raw gossip record (`Pod` from the xandeum-prpc client), with exactly the
fields the repository reads. `last_seen_timestamp` is unix seconds. -/
structure Pod where
  pubkey : Option String
  uptime : Option ℚ
  storage_used : Option ℚ
  storage_committed : Option ℚ
  storage_usage_percent : Option ℚ
  last_seen_timestamp : ℚ
  is_public : Option Bool
  rpc_port : Option ℚ
  address : Option String
  version : Option String
deriving DecidableEq, Repr

/-- `PNodeStatus = "online" | "offline"` from the types module. -/
inductive PNodeStatus where
  | online
  | offline
deriving DecidableEq, Repr

/-- `NetworkHealth = "healthy" | "degraded" | "unstable"`. -/
inductive NetworkHealth where
  | healthy
  | degraded
  | unstable
deriving DecidableEq, Repr

/-- `NodeTier = "Excellent" | "Good" | "Poor"` from format.ts. -/
inductive NodeTier where
  | Excellent
  | Good
  | Poor
deriving DecidableEq, Repr

/-- Canonical node (`PNode` interface). `lastSeen` is the millisecond
timestamp whose ISO-8601 rendering the code stores (the rendering is
injective on valid times, so the number stands in for the string). -/
structure PNode where
  pubkey : String
  status : PNodeStatus
  version : String
  storageUsed : ℚ
  storageTotal : ℚ
  uptime : ℚ
  ip : String
  lastSeen : ℚ
  address : Option String
  isPublic : Option Bool
  rpcPort : Option ℚ
  storageCommitted : Option ℚ
  storageUsagePercent : Option ℚ
  lastSeenTimestamp : Option ℚ
  ramUsed : Option ℚ
  ramTotal : Option ℚ
deriving DecidableEq, Repr

/-- Per-node derived metrics (`NodeMetrics` interface). -/
structure NodeMetrics where
  pubkey : String
  healthScore : ℚ
  uptime24h : ℚ
  storageUtilization : ℚ
  tier : NodeTier
deriving DecidableEq, Repr

/-- ECMAScript time-value range: `new Date(ms).toISOString()` throws a
RangeError iff `|ms| > 8.64e15`. -/
def maxEcmaTimeMs : ℚ := 8640000000000000

/-- `normalizePNode` from format.ts. `threshold` is `ONLINE_THRESHOLD_SECONDS`
(default 300) and `now` the floored unix-seconds clock
(`Math.floor(Date.now() / 1000)`). The `Except` error is the RangeError that
`Date#toISOString` raises when `last_seen_timestamp * 1000` falls outside the
representable time range; every other step is total. -/
def normalizePNode (threshold : ℚ) (now : ℤ) (pod : Pod) : Except Unit PNode :=
  let thresholdTime : ℚ := (now : ℚ) - threshold
  let storageTotal : ℚ :=
    if numTruthy pod.storage_committed then numOr0 pod.storage_committed
    else if numTruthy pod.storage_used ∧ numTruthy pod.storage_usage_percent then
      let p := numOr0 pod.storage_usage_percent
      if p > 0 ∧ p ≤ 100 then (jsRound (numOr0 pod.storage_used * 100 / p) : ℚ)
      else 0
    else 0
  let lastSeenMs : ℚ := pod.last_seen_timestamp * 1000
  if maxEcmaTimeMs < lastSeenMs ∨ lastSeenMs < -maxEcmaTimeMs then Except.error ()
  else
    let rawUptime : ℚ := numOr0 pod.uptime
    let thirtyDaysInSeconds : ℚ := 30 * 24 * 60 * 60
    let uptime30dNormalized : ℚ :=
      if rawUptime > 100 then jsMin 100 (rawUptime / thirtyDaysInSeconds * 100)
      else if rawUptime < 0 then 0
      else rawUptime
    Except.ok
      { pubkey := strOr pod.pubkey ""
        status :=
          if pod.last_seen_timestamp ≥ thresholdTime then PNodeStatus.online
          else PNodeStatus.offline
        version := strOr pod.version "unknown"
        storageUsed := numOr0 pod.storage_used
        storageTotal := storageTotal
        uptime := uptime30dNormalized
        ip := strOr pod.address ""
        lastSeen := lastSeenMs
        address := pod.address
        isPublic := pod.is_public
        rpcPort := pod.rpc_port
        storageCommitted := pod.storage_committed
        storageUsagePercent := pod.storage_usage_percent
        lastSeenTimestamp := some pod.last_seen_timestamp
        ramUsed := none
        ramTotal := none }

/-- `calculateUptime24h` from format.ts. -/
def calculateUptime24h (uptimeSeconds : ℚ) : ℚ :=
  if uptimeSeconds < 0 then 0
  else jsMin 100 (jsMax 0 (uptimeSeconds / 86400 * 100))

/-- `calculateHealthScore` from format.ts. -/
def calculateHealthScore (uptime24h storageUtilization : ℚ) (isOnline : Bool) : ℚ :=
  let uptimeScore := uptime24h * (5/10)
  let clampedUtilization := jsMin 100 (jsMax 0 storageUtilization)
  let storageScore := (100 - clampedUtilization) * (3/10)
  let onlineScore : ℚ := if isOnline then 100 else 0
  let onlineScoreWeighted := onlineScore * (2/10)
  let totalScore := uptimeScore + storageScore + onlineScoreWeighted
  round2 (jsMin 100 (jsMax 0 totalScore))

/-- `getNodeTier` from format.ts. -/
def getNodeTier (healthScore : ℚ) : NodeTier :=
  if healthScore ≥ 90 then NodeTier.Excellent
  else if healthScore ≥ 75 then NodeTier.Good
  else NodeTier.Poor

/-- `calculateUtilization` from format.ts. -/
def calculateUtilization (storageUsed storageTotal : ℚ) : ℚ :=
  if storageTotal = 0 then 0
  else round2 (storageUsed / storageTotal * 100)

/-! ## Analytics/metrics engine (analytics service module) -/

/-- `calculateNetworkHealth` from the analytics service. -/
def calculateNetworkHealth (onlinePercentage : ℚ) : NetworkHealth :=
  if onlinePercentage ≥ 95 then NetworkHealth.healthy
  else if onlinePercentage ≥ 85 then NetworkHealth.degraded
  else NetworkHealth.unstable

/-- `computeNodeMetricsFromData` from the analytics service (the debug-log
branch is observational only and is omitted). For each pod the matching node
is looked up by pubkey; pods without a match or with a falsy pubkey are
skipped. -/
def computeNodeMetricsFromData (pods : List Pod) (nodes : List PNode) : List NodeMetrics :=
  pods.filterMap fun pod =>
    match nodes.find? (fun n => pod.pubkey = some n.pubkey) with
    | none => none
    | some node =>
      if pod.pubkey.getD "" = "" then none
      else
        let uptimeSeconds := numOr0 pod.uptime
        let uptime24h := calculateUptime24h uptimeSeconds
        let storageCommitted := numOr0 pod.storage_committed
        let storageUsed := numOr0 pod.storage_used
        let storageUtilization :=
          if storageCommitted > 0 then round2 (storageUsed / storageCommitted * 100)
          else 0
        let healthScore :=
          calculateHealthScore uptime24h storageUtilization
            (node.status = PNodeStatus.online)
        some
          { pubkey := pod.pubkey.getD ""
            healthScore := healthScore
            uptime24h := uptime24h
            storageUtilization := storageUtilization
            tier := getNodeTier healthScore }

/-- `AnalyticsSummary` from the types module. -/
structure AnalyticsSummary where
  totalPNodes : ℕ
  onlinePNodes : ℕ
  onlinePercentage : ℚ
  totalPods : ℕ
  activePods : ℕ
  averageUptime : ℚ
  totalStorageUsed : ℚ
  totalStorageCapacity : ℚ
  totalStorageUsedTB : ℚ
  totalStorageCapacityTB : ℚ
  networkHealth : NetworkHealth
  consensusVersion : String
deriving DecidableEq, Repr

/-- Version counting used by `getAnalyticsSummary`: a JS `Map<string, number>`
keyed by `node.version || "unknown"`, preserving first-insertion order, as an
association list. -/
def versionCounts (nodes : List PNode) : List (String × ℕ) :=
  nodes.foldl
    (fun acc node =>
      let version := if node.version = "" then "unknown" else node.version
      if acc.any (fun e => e.1 = version) then
        acc.map (fun e => if e.1 = version then (e.1, e.2 + 1) else e)
      else acc ++ [(version, 1)])
    []

/-- The consensus-version scan of `getAnalyticsSummary`: strict-maximum count
over the insertion-ordered version map, starting from `("unknown", 0)`, so
ties keep the earlier-inserted version. -/
def consensusVersionOf (nodes : List PNode) : String :=
  (versionCounts nodes).foldl
    (fun best e => if e.2 > best.2 then e else best) ("unknown", 0) |>.1

/-- The body of `getAnalyticsSummary` from the analytics service, as a pure
function of the normalized node list, the raw pod list, the online threshold
and the current unix-seconds clock. -/
def computeAnalyticsSummary (threshold : ℚ) (now : ℤ) (nodes : List PNode)
    (rawPods : List Pod) : AnalyticsSummary :=
  let thresholdTime : ℚ := (now : ℚ) - threshold
  let activePods := (rawPods.filter (fun p => p.last_seen_timestamp ≥ thresholdTime)).length
  let totalPods := rawPods.length
  let totalPNodes := nodes.length
  let onlineNodes := nodes.filter (fun n => n.status = PNodeStatus.online)
  let onlinePNodes := onlineNodes.length
  let onlinePercentage : ℚ :=
    if totalPNodes > 0 then round2 ((onlinePNodes : ℚ) / (totalPNodes : ℚ) * 100)
    else 0
  let uptimes := (onlineNodes.map PNode.uptime).filter (fun u => u > 0)
  let averageUptime : ℚ :=
    if uptimes.length > 0 then round2 (uptimes.sum / (uptimes.length : ℚ))
    else 0
  let totalStorageUsed := (nodes.map PNode.storageUsed).sum
  let totalStorageCapacity :=
    rawPods.foldl
      (fun sum pod =>
        if numTruthy pod.storage_committed ∧ numOr0 pod.storage_committed > 0 then
          sum + numOr0 pod.storage_committed
        else sum)
      0
  { totalPNodes := totalPNodes
    onlinePNodes := onlinePNodes
    onlinePercentage := onlinePercentage
    totalPods := totalPods
    activePods := activePods
    averageUptime := averageUptime
    totalStorageUsed := totalStorageUsed
    totalStorageCapacity := totalStorageCapacity
    totalStorageUsedTB := totalStorageUsed / 1024 ^ 4
    totalStorageCapacityTB := totalStorageCapacity / 1024 ^ 4
    networkHealth := calculateNetworkHealth onlinePercentage
    consensusVersion := consensusVersionOf nodes }

/-! ## Discovery service (pnode.service.ts)

Gossip RPCs are modelled by their outcomes: each upstream call either throws
(`Except.error`) or returns a pod list. `GossipEnv` fixes the outcome of the
primary endpoint's `getPodsWithStats` and `getPods` calls and of the `getPods`
call against each fallback seed (`SEED_IPS[1..]`), along with the clock and
the configured online threshold. -/

/-- Outcome of one gossip RPC. -/
abbrev FetchResult := Except Unit (List Pod)

/-- Environment fixing the outcome of every upstream gossip call. -/
structure GossipEnv where
  threshold : ℚ
  now : ℤ
  withStats : FetchResult
  podsPlain : FetchResult
  seeds : List FetchResult

/-- The per-pod normalize-and-filter loop shared by the discovery routines:
records that throw during normalization are skipped, and records with an
empty pubkey are dropped. -/
def normalizeFilter (threshold : ℚ) (now : ℤ) (pods : List Pod) : List PNode :=
  pods.filterMap fun pod =>
    match normalizePNode threshold now pod with
    | Except.ok n => if n.pubkey = "" then none else some n
    | Except.error _ => none

/-- The primary-endpoint phase of `discoverPNodesViaGossip`: try
`getPodsWithStats`, fall back to `getPods` on the same endpoint, and
normalize whatever came back; both calls failing leaves nothing. -/
def primaryNodes (env : GossipEnv) : List PNode :=
  match env.withStats with
  | Except.ok pods => normalizeFilter env.threshold env.now pods
  | Except.error _ =>
    match env.podsPlain with
    | Except.ok pods => normalizeFilter env.threshold env.now pods
    | Except.error _ => []

/-- The seed-fallback loop of `discoverPNodesViaGossip`: walk the remaining
seeds in order, skip seeds that throw, and stop at the first seed whose pods
normalize to a non-empty node list. -/
def seedLoop (threshold : ℚ) (now : ℤ) : List FetchResult → List PNode
  | [] => []
  | Except.error _ :: rest => seedLoop threshold now rest
  | Except.ok pods :: rest =>
    let nodes := normalizeFilter threshold now pods
    if nodes.isEmpty then seedLoop threshold now rest else nodes

/-- `discoverPNodesViaGossip` from pnode.service.ts: the seed loop runs
whenever the primary endpoint produced zero usable records (whether it threw
or returned an empty/unusable list). -/
def discoverPNodesViaGossip (env : GossipEnv) : List PNode :=
  let primary := primaryNodes env
  if primary.isEmpty then seedLoop env.threshold env.now env.seeds else primary

/-- RAM stats as read back from the stats cache
(`ram_used` / `ram_total` of a cached `getStats` result). -/
structure RamStats where
  ram_used : Option ℚ
  ram_total : Option ℚ
deriving DecidableEq, Repr

/-- The per-node stats cache, keyed by `"node_stats_" ++ pubkey`. -/
abbrev StatsCache := String → Option RamStats

/-- `enrichNodeWithStats` from the stats-enrichment service: merge cached RAM
figures into the node when both are present, otherwise return it unchanged. -/
def enrichNodeWithStats (sc : StatsCache) (node : PNode) : PNode :=
  match sc ("node_stats_" ++ node.pubkey) with
  | some st =>
    match st.ram_used, st.ram_total with
    | some u, some t => { node with ramUsed := some u, ramTotal := some t }
    | _, _ => node
  | none => node

/-- `enrichNodesWithCachedStats` from the stats-enrichment service. -/
def enrichNodesWithCachedStats (sc : StatsCache) (nodes : List PNode) : List PNode :=
  nodes.map (enrichNodeWithStats sc)

/-- The dedup loop of `getAllPNodes`: a `seen` set of pubkeys, skipping empty
pubkeys and every repeat, keeping the first occurrence in order. -/
def dedupLoop : List PNode → List String → List PNode
  | [], _ => []
  | node :: rest, seen =>
    if node.pubkey = "" then dedupLoop rest seen
    else if node.pubkey ∈ seen then dedupLoop rest seen
    else node :: dedupLoop rest (node.pubkey :: seen)

/-- Deduplication by pubkey, first occurrence wins (`getAllPNodes`). -/
def dedupByPubkey (nodes : List PNode) : List PNode := dedupLoop nodes []

/-- `getAllPNodes` from pnode.service.ts: on a cache hit, enrich and return
the cached list; on a miss, discover, deduplicate, (write back — the write is
not part of the returned value) and enrich. -/
def getAllPNodes (cache : Option (List PNode)) (sc : StatsCache)
    (env : GossipEnv) : List PNode :=
  match cache with
  | some cached => enrichNodesWithCachedStats sc cached
  | none =>
    enrichNodesWithCachedStats sc (dedupByPubkey (discoverPNodesViaGossip env))

/-- `getAllPNodesForMap` from pnode.service.ts: no deduplication, and the
seed loop runs only when the primary attempt threw (it sits inside the
`catch`), not when the primary returned zero usable records. -/
def getAllPNodesForMap (cacheMap : Option (List PNode)) (sc : StatsCache)
    (env : GossipEnv) : List PNode :=
  match cacheMap with
  | some cached => enrichNodesWithCachedStats sc cached
  | none =>
    let discovered :=
      match env.withStats with
      | Except.ok pods => normalizeFilter env.threshold env.now pods
      | Except.error _ =>
        match env.podsPlain with
        | Except.ok pods => normalizeFilter env.threshold env.now pods
        | Except.error _ => seedLoop env.threshold env.now env.seeds
    enrichNodesWithCachedStats sc discovered

/-- `getRawPodsForAnalytics` from pnode.service.ts: on a cache miss, try the
primary `getPodsWithStats`; its failure is caught and `getPods` is tried, but
a failure of that second call is NOT caught and propagates to the caller. -/
def getRawPodsForAnalytics (cacheA : Option (List Pod)) (env : GossipEnv) :
    Except Unit (List Pod) :=
  match cacheA with
  | some pods => Except.ok pods
  | none =>
    match env.withStats with
    | Except.ok pods => Except.ok pods
    | Except.error _ =>
      match env.podsPlain with
      | Except.ok pods => Except.ok pods
      | Except.error e => Except.error e

/-- `getAnalyticsSummary` from the analytics service: reads the node list
(never throws) and the raw pod list (may throw), then aggregates. An
exception from `getRawPodsForAnalytics` escapes uncaught. -/
def getAnalyticsSummary (cacheN : Option (List PNode)) (cacheA : Option (List Pod))
    (sc : StatsCache) (env : GossipEnv) : Except Unit AnalyticsSummary :=
  let nodes := getAllPNodes cacheN sc env
  match getRawPodsForAnalytics cacheA env with
  | Except.error e => Except.error e
  | Except.ok rawPods =>
    Except.ok (computeAnalyticsSummary env.threshold env.now nodes rawPods)

/-! ## Tiered cache (redis.service.ts + the in-process fallback tier)

The remote tier is the Redis client guarded by the module-level
`redisAvailable` flag: `getFromRedis` returns `null` and `setInRedis` returns
without writing whenever the flag is down or the client is absent, and both
swallow client errors. Redis-native TTL expiry of the remote store is outside
the model (every claim here exercises the remote tier in its down state). -/

/-- State of the remote (Redis) tier: the availability flag and the backing
store. -/
structure RedisState (V : Type) where
  available : Bool
  store : List (String × V)
deriving Repr

/-- `getFromRedis`: `null` when the remote tier is down, else a store lookup.
-/
def getFromRedis (V : Type) (rs : RedisState V) (key : String) : Option V :=
  if rs.available then (rs.store.find? (fun e => e.1 = key)).map (·.2)
  else none

/-- `setInRedis`: no-op when the remote tier is down, else an upsert. -/
def setInRedis (V : Type) (rs : RedisState V) (key : String) (v : V) : RedisState V :=
  if rs.available then
    { rs with store := (key, v) :: rs.store.filter (fun e => e.1 ≠ key) }
  else rs

/-- Modelled from the spec: the local in-process cache tier
(`cacheService` from cache.service.ts, whose source is not in the repository
snapshot; only redis.service.ts's calls to its `get`/`set`/`delete` are).
Per §3/§4.1 of the spec an entry is `(key, value, expiry)`; `set` stores the
value with expiry `now + ttlMs`, and `get` returns the value only while the
explicit expiry timestamp lies in the future, absence being `none`, never an
error. -/
def LocalCache (V : Type) := String → Option (V × ℚ)

/-- Modelled from the spec: local-tier write (`cacheService.set`). -/
def LocalCache.set (V : Type) (c : LocalCache V) (key : String) (v : V)
    (ttlMs now : ℚ) : LocalCache V :=
  fun k => if k = key then some (v, now + ttlMs) else c k

/-- Modelled from the spec: local-tier read (`cacheService.get`) with the
explicit expiry-timestamp check. -/
def LocalCache.get (V : Type) (c : LocalCache V) (key : String) (now : ℚ) :
    Option V :=
  match c key with
  | some (v, expiry) => if now < expiry then some v else none
  | none => none

/-- A `RedisCacheService` instance (redis.service.ts): a key prefix for the
remote tier plus the two tier states. -/
structure TieredCache (V : Type) where
  keyPrefix : String
  redis : RedisState V
  localTier : LocalCache V

/-- `RedisCacheService.get`: try the remote tier first (prefixed key), fall
back to the local tier. Neither path can raise. -/
def TieredCache.get (V : Type) (c : TieredCache V) (key : String) (now : ℚ) :
    Option V :=
  match getFromRedis V c.redis (c.keyPrefix ++ key) with
  | some v => some v
  | none => LocalCache.get V c.localTier key now

/-- `RedisCacheService.set`: write-through to both tiers; the remote write is
skipped/swallowed when the remote tier is down, and the local write always
happens. -/
def TieredCache.set (V : Type) (c : TieredCache V) (key : String) (v : V)
    (ttlMs now : ℚ) : TieredCache V :=
  { c with
    redis := setInRedis V c.redis (c.keyPrefix ++ key) v
    localTier := LocalCache.set V c.localTier key v ttlMs now }

/-! ## Stats-enrichment job re-entrancy guard (stats-enrichment service)

`preFetchAllNodeStats` is guarded by the module-level `isRunning` flag. The
body (fetch the node list, filter to online nodes, batch-fetch stats) is
modelled by its outcome: the node-list fetch either throws or returns a list,
and the per-node fetches it would perform are counted. The returned number is
the count of `getNodeStatsByPubkey` calls issued (online nodes not already
warm in the stats cache); batching only orders those calls and does not
change the count. -/

/-- Job state: the module-level `isRunning` re-entrancy flag. -/
structure JobState where
  isRunning : Bool
deriving DecidableEq, Repr

/-- Number of per-node stats fetches the body performs: online nodes whose
stats are not already cached. -/
def statsFetchCount (sc : StatsCache) (nodes : List PNode) : ℕ :=
  ((nodes.filter (fun n => n.status = PNodeStatus.online)).filter
    (fun n => (sc ("node_stats_" ++ n.pubkey)).isNone)).length

/-- `preFetchAllNodeStats`: if a run is already in flight, return immediately
with no fetches and no state change; otherwise set the flag, run the body
(whose `getAllPNodes` call may throw — the `catch` swallows it), and clear
the flag on every exit path (the early empty-list return, normal completion,
and the `finally` after an error). Returns the new state and the number of
per-node stats fetches performed. -/
def preFetchAllNodeStats (st : JobState) (nodesResult : Except Unit (List PNode))
    (sc : StatsCache) : JobState × ℕ :=
  if st.isRunning then (st, 0)
  else
    match nodesResult with
    | Except.error _ => ({ isRunning := false }, 0)
    | Except.ok nodes => ({ isRunning := false }, statsFetchCount sc nodes)

/-! ## Spec-side formulas (for the refinement claims)

These definitions transcribe the SPEC's wording, to be compared against the
code-derived definitions above. -/

/-- The spec's `clamp(x, lo, hi)`. -/
def specClamp (x lo hi : ℚ) : ℚ := jsMin hi (jsMax lo x)

/-- Spec formula: `uptime24h = clamp(rawUptimeSeconds / 86400 * 100, 0, 100)`. -/
def specUptime24h (u : ℚ) : ℚ := specClamp (u / 86400 * 100) 0 100

/-- Spec formula:
`storageUtilization = storageCommitted > 0 ? round2(storageUsed / storageCommitted * 100) : 0`. -/
def specStorageUtilization (storageUsed storageCommitted : ℚ) : ℚ :=
  if storageCommitted > 0 then round2 (storageUsed / storageCommitted * 100) else 0

/-- Spec formula: `healthScore = round2(clamp(uptime24h * 0.5
+ (100 - clamp(storageUtilization, 0, 100)) * 0.3 + (isOnline ? 100 : 0) * 0.2,
0, 100))`. -/
def specHealthScore (uptime24h storageUtilization : ℚ) (isOnline : Bool) : ℚ :=
  round2 (specClamp
    (uptime24h * (5/10) + (100 - specClamp storageUtilization 0 100) * (3/10) +
      (if isOnline then 100 else 0) * (2/10))
    0 100)

/-- The back-computation branch shared by the storage-total formulas:
`round(storage_used * 100 / storage_usage_percent)` when
`storage_usage_percent` lies in (0, 100], else 0 (unknown capacity). -/
def backComputedStorageTotal (pod : Pod) : ℚ :=
  let p := numOr0 pod.storage_usage_percent
  if 0 < p ∧ p ≤ 100 then (jsRound (numOr0 pod.storage_used * 100 / p) : ℚ)
  else 0

/-- Claim C3's storage-total resolution, as worded: the committed-storage
field is taken only when present and POSITIVE. -/
def claimStorageTotal (pod : Pod) : ℚ :=
  match pod.storage_committed with
  | some c => if 0 < c then c else backComputedStorageTotal pod
  | none => backComputedStorageTotal pod

/-- The amended storage-total resolution, matching the code's JS truthiness
test: the committed-storage field is taken when present and NONZERO (so a
negative committed value is also taken verbatim). -/
def amendedStorageTotal (pod : Pod) : ℚ :=
  match pod.storage_committed with
  | some c => if c ≠ 0 then c else backComputedStorageTotal pod
  | none => backComputedStorageTotal pod

/-! ## Concrete inputs used by scenario conjuncts, counterexamples and
witnesses -/

/-- A fixed "now" (unix seconds) for the concrete scenarios. -/
def nowT : ℤ := 1700000000

/-- The stats cache with nothing in it. -/
def scEmpty : StatsCache := fun _ => none

/-- The spec scenario record: `{pubkey:"abc", uptime:43200,
storage_used:500_000_000_000, storage_committed:1_000_000_000_000,
last_seen_timestamp: now-10}`. -/
def podAbc : Pod :=
  { pubkey := some "abc"
    uptime := some 43200
    storage_used := some 500000000000
    storage_committed := some 1000000000000
    storage_usage_percent := none
    last_seen_timestamp := 1699999990
    is_public := none
    rpc_port := none
    address := none
    version := none }

/-- A record last seen exactly `now - 300` seconds ago (boundary, online). -/
def podSeen300 : Pod :=
  { pubkey := some "b300"
    uptime := some 10
    storage_used := none
    storage_committed := none
    storage_usage_percent := none
    last_seen_timestamp := 1699999700
    is_public := none
    rpc_port := none
    address := none
    version := none }

/-- A record last seen `now - 301` seconds ago (just past the boundary,
offline). -/
def podSeen301 : Pod :=
  { pubkey := some "b301"
    uptime := some 10
    storage_used := none
    storage_committed := none
    storage_usage_percent := none
    last_seen_timestamp := 1699999699
    is_public := none
    rpc_port := none
    address := none
    version := none }

/-- Counterexample record for C3: committed storage present but negative
(truthy in JS), with a perfectly back-computable usage percentage. -/
def podNegCommitted : Pod :=
  { pubkey := some "neg"
    uptime := some 0
    storage_used := some 100
    storage_committed := some (-1)
    storage_usage_percent := some 50
    last_seen_timestamp := 1699999990
    is_public := none
    rpc_port := none
    address := none
    version := none }

/-- First of two records sharing pubkey "x" (different addresses). -/
def podX1 : Pod :=
  { pubkey := some "x"
    uptime := some 50
    storage_used := some 0
    storage_committed := none
    storage_usage_percent := none
    last_seen_timestamp := 1699999990
    is_public := none
    rpc_port := none
    address := some "1.1.1.1:3000"
    version := none }

/-- Second record with the same pubkey "x" at a different address. -/
def podX2 : Pod :=
  { pubkey := some "x"
    uptime := some 60
    storage_used := some 0
    storage_committed := none
    storage_usage_percent := none
    last_seen_timestamp := 1699999990
    is_public := none
    rpc_port := none
    address := some "2.2.2.2:3000"
    version := none }

/-- The expected normalization of `podX1`. -/
def nodeX1 : PNode :=
  { pubkey := "x"
    status := PNodeStatus.online
    version := "unknown"
    storageUsed := 0
    storageTotal := 0
    uptime := 50
    ip := "1.1.1.1:3000"
    lastSeen := 1699999990000
    address := some "1.1.1.1:3000"
    isPublic := none
    rpcPort := none
    storageCommitted := none
    storageUsagePercent := none
    lastSeenTimestamp := some 1699999990
    ramUsed := none
    ramTotal := none }

/-- The expected normalization of `podX2`. -/
def nodeX2 : PNode :=
  { pubkey := "x"
    status := PNodeStatus.online
    version := "unknown"
    storageUsed := 0
    storageTotal := 0
    uptime := 60
    ip := "2.2.2.2:3000"
    lastSeen := 1699999990000
    address := some "2.2.2.2:3000"
    isPublic := none
    rpcPort := none
    storageCommitted := none
    storageUsagePercent := none
    lastSeenTimestamp := some 1699999990
    ramUsed := none
    ramTotal := none }

/-- The expected normalization of `podAbc` (uptime 43200 s rescales to
43200/2592000*100 = 5/3 on the 30-day window). -/
def nodeAbc : PNode :=
  { pubkey := "abc"
    status := PNodeStatus.online
    version := "unknown"
    storageUsed := 500000000000
    storageTotal := 1000000000000
    uptime := 5/3
    ip := ""
    lastSeen := 1699999990000
    address := none
    isPublic := none
    rpcPort := none
    storageCommitted := some 1000000000000
    storageUsagePercent := none
    lastSeenTimestamp := some 1699999990
    ramUsed := none
    ramTotal := none }

/-- Environment in which the primary endpoint and every fallback seed throw. -/
def envAllFail : GossipEnv :=
  { threshold := 300
    now := nowT
    withStats := Except.error ()
    podsPlain := Except.error ()
    seeds := [Except.error (), Except.error ()] }

/-- Environment in which every upstream succeeds but reports zero pods. -/
def envAllEmpty : GossipEnv :=
  { threshold := 300
    now := nowT
    withStats := Except.ok []
    podsPlain := Except.ok []
    seeds := [Except.ok []] }

/-- Environment whose primary endpoint returns the two duplicate-pubkey
records. -/
def envDup : GossipEnv :=
  { threshold := 300
    now := nowT
    withStats := Except.ok [podX1, podX2]
    podsPlain := Except.error ()
    seeds := [] }

/-- A tiered cache (over ℕ values) whose remote tier is down, used as a
concrete witness input. -/
def cacheDownNat : TieredCache ℕ :=
  { keyPrefix := "xandeum:nodes:"
    redis := { available := false, store := [] }
    localTier := fun _ => none }

/-! ## Helper lemmas -/

/-- `jsFloor` agrees with the mathematical floor on ℚ. -/
theorem jsFloor_eq (q : ℚ) : jsFloor q = ⌊q⌋ := by
  rw [jsFloor, Rat.floor_def', Rat.floor_def]

theorem jsMin_le_left (a b : ℚ) : jsMin a b ≤ a := by
  rw [jsMin]; split
  · exact le_refl a
  · exact le_of_not_le (by assumption)

theorem jsMin_le_right (a b : ℚ) : jsMin a b ≤ b := by
  rw [jsMin]; split
  · assumption
  · exact le_refl b

theorem le_jsMin {a b c : ℚ} (h1 : c ≤ a) (h2 : c ≤ b) : c ≤ jsMin a b := by
  rw [jsMin]; split
  · exact h1
  · exact h2

theorem le_jsMax_left (a b : ℚ) : a ≤ jsMax a b := by
  rw [jsMax]; split
  · exact le_refl a
  · exact le_of_not_le (by assumption)

theorem jsMax_le {a b c : ℚ} (h1 : a ≤ c) (h2 : b ≤ c) : jsMax a b ≤ c := by
  rw [jsMax]; split
  · exact h1
  · exact h2

theorem round2_nonneg {q : ℚ} (h : 0 ≤ q) : 0 ≤ round2 q := by
  rw [round2, jsRound, jsFloor_eq]
  have h0 : (0 : ℤ) ≤ ⌊q * 100 + 1/2⌋ := Int.le_floor.mpr (by push_cast; nlinarith)
  have h0q : (0 : ℚ) ≤ (⌊q * 100 + 1/2⌋ : ℚ) := by exact_mod_cast h0
  positivity

theorem round2_le_intCast {q : ℚ} {n : ℤ} (h : q ≤ (n : ℚ)) : round2 q ≤ (n : ℚ) := by
  rw [round2, jsRound, jsFloor_eq]
  have h1 : ⌊q * 100 + 1/2⌋ ≤ 100 * n := by
    have hle : q * 100 + 1/2 ≤ (n : ℚ) * 100 + 1/2 := by nlinarith
    calc ⌊q * 100 + 1/2⌋ ≤ ⌊(n : ℚ) * 100 + 1/2⌋ := Int.floor_mono hle
      _ = 100 * n := by
          rw [show ((n : ℚ) * 100 + 1/2) = ((100 * n : ℤ) : ℚ) + 1/2 by push_cast; ring]
          rw [Int.floor_int_add]
          norm_num
  have h2 : ((⌊q * 100 + 1/2⌋ : ℤ) : ℚ) ≤ ((100 * n : ℤ) : ℚ) := by exact_mod_cast h1
  rw [div_le_iff₀ (by norm_num : (0 : ℚ) < 100)]
  calc ((⌊q * 100 + 1/2⌋ : ℤ) : ℚ) ≤ ((100 * n : ℤ) : ℚ) := h2
    _ = (n : ℚ) * 100 := by push_cast; ring

/-- One-step unfolding of `calculateHealthScore` with the lets inlined. -/
theorem calculateHealthScore_eq (u s : ℚ) (o : Bool) :
    calculateHealthScore u s o =
      round2 (jsMin 100 (jsMax 0
        (u * (5/10) + (100 - jsMin 100 (jsMax 0 s)) * (3/10) +
          (if o then 100 else 0) * (2/10)))) := rfl

/-- One-step unfolding of `normalizePNode` with the lets inlined. -/
theorem normalizePNode_eq (threshold : ℚ) (now : ℤ) (pod : Pod) :
    normalizePNode threshold now pod =
      if maxEcmaTimeMs < pod.last_seen_timestamp * 1000 ∨
          pod.last_seen_timestamp * 1000 < -maxEcmaTimeMs then
        Except.error ()
      else
        Except.ok
          { pubkey := strOr pod.pubkey ""
            status :=
              if pod.last_seen_timestamp ≥ (now : ℚ) - threshold then
                PNodeStatus.online
              else PNodeStatus.offline
            version := strOr pod.version "unknown"
            storageUsed := numOr0 pod.storage_used
            storageTotal :=
              if numTruthy pod.storage_committed then numOr0 pod.storage_committed
              else if numTruthy pod.storage_used ∧ numTruthy pod.storage_usage_percent then
                if numOr0 pod.storage_usage_percent > 0 ∧
                    numOr0 pod.storage_usage_percent ≤ 100 then
                  (jsRound (numOr0 pod.storage_used * 100 /
                    numOr0 pod.storage_usage_percent) : ℚ)
                else 0
              else 0
            uptime :=
              if numOr0 pod.uptime > 100 then
                jsMin 100 (numOr0 pod.uptime / (30 * 24 * 60 * 60) * 100)
              else if numOr0 pod.uptime < 0 then 0
              else numOr0 pod.uptime
            ip := strOr pod.address ""
            lastSeen := pod.last_seen_timestamp * 1000
            address := pod.address
            isPublic := pod.is_public
            rpcPort := pod.rpc_port
            storageCommitted := pod.storage_committed
            storageUsagePercent := pod.storage_usage_percent
            lastSeenTimestamp := some pod.last_seen_timestamp
            ramUsed := none
            ramTotal := none } := rfl

/-! ## Claim theorems -/

/-- C10: `calculateHealthScore` always lands in [0, 100]; `getNodeTier`
assigns Excellent exactly at scores ≥ 90, Good exactly on [75, 90), Poor
exactly below 75; and an offline node whose `uptime24h` input is ≤ 100 scores
at most 80, so its tier is never Excellent. -/
theorem healthScore_bounds_and_tier :
    (∀ (u s : ℚ) (o : Bool),
        0 ≤ calculateHealthScore u s o ∧ calculateHealthScore u s o ≤ 100) ∧
    (∀ n : ℚ,
        (getNodeTier n = NodeTier.Excellent ↔ n ≥ 90) ∧
        (getNodeTier n = NodeTier.Good ↔ 75 ≤ n ∧ n < 90) ∧
        (getNodeTier n = NodeTier.Poor ↔ n < 75)) ∧
    (∀ u s : ℚ, u ≤ 100 →
        calculateHealthScore u s false ≤ 80 ∧
        getNodeTier (calculateHealthScore u s false) ≠ NodeTier.Excellent) := by
  refine ⟨?_, ?_, ?_⟩
  · intro u s o
    rw [calculateHealthScore_eq]
    constructor
    · exact round2_nonneg (le_jsMin (by norm_num) (le_jsMax_left 0 _))
    · have h := jsMin_le_left 100 (jsMax 0
        (u * (5/10) + (100 - jsMin 100 (jsMax 0 s)) * (3/10) +
          (if o then (100 : ℚ) else 0) * (2/10)))
      have h2 := round2_le_intCast (n := 100) (by exact_mod_cast h)
      exact_mod_cast h2
  · intro n
    simp only [getNodeTier]
    split_ifs with h1 h2
    · refine ⟨iff_of_true rfl h1, iff_of_false (by simp) ?_, iff_of_false (by simp) ?_⟩
      · rintro ⟨-, hlt⟩
        exact absurd h1 (not_le.mpr hlt)
      · intro hlt
        exact absurd h1 (not_le.mpr (by linarith))
    · refine ⟨iff_of_false (by simp) h1, iff_of_true rfl ⟨h2, lt_of_not_ge h1⟩,
        iff_of_false (by simp) ?_⟩
      intro hlt
      exact absurd h2 (not_le.mpr hlt)
    · exact ⟨iff_of_false (by simp) h1,
        iff_of_false (by simp) (fun hc => h2 hc.1),
        iff_of_true rfl (lt_of_not_ge h2)⟩
  · intro u s hu
    have hcu0 : (0 : ℚ) ≤ jsMin 100 (jsMax 0 s) :=
      le_jsMin (by norm_num) (le_jsMax_left 0 s)
    have hif : (if false then (100 : ℚ) else 0) = 0 := rfl
    have hT : u * (5/10) + (100 - jsMin 100 (jsMax 0 s)) * (3/10) +
        (if false then (100 : ℚ) else 0) * (2/10) ≤ 80 := by
      rw [hif]
      nlinarith
    have hscore : calculateHealthScore u s false ≤ 80 := by
      rw [calculateHealthScore_eq]
      have h1 : jsMax 0 (u * (5/10) + (100 - jsMin 100 (jsMax 0 s)) * (3/10) +
          (if false then (100 : ℚ) else 0) * (2/10)) ≤ 80 :=
        jsMax_le (by norm_num) hT
      have h2 := le_trans (jsMin_le_right 100 _) h1
      have h3 := round2_le_intCast (n := 80) (by exact_mod_cast h2)
      exact_mod_cast h3
    refine ⟨hscore, ?_⟩
    simp only [getNodeTier]
    split_ifs with g1 g2
    · exact absurd g1 (not_le.mpr (by linarith))
    · simp
    · simp

/-- Witness for C10 at `u = 50`, `s = 50`: an offline node with these inputs
scores at most 80 and is not Excellent. -/
theorem healthScore_bounds_and_tier_witness :
    calculateHealthScore 50 50 false ≤ 80 ∧
    getNodeTier (calculateHealthScore 50 50 false) ≠ NodeTier.Excellent :=
  healthScore_bounds_and_tier.2.2 50 50 (by decide)

theorem numTruthy_none : numTruthy none = false := rfl

theorem numTruthy_some (v : ℚ) : numTruthy (some v) = true ↔ v ≠ 0 := by
  simp [numTruthy]

theorem numOr0_none : numOr0 none = 0 := rfl

theorem numOr0_some (v : ℚ) : numOr0 (some v) = v := rfl

/-- Inversion: a successful normalization is exactly the record built from
the pod's fields. -/
theorem normalizePNode_ok_inv {threshold : ℚ} {now : ℤ} {pod : Pod} {n : PNode}
    (h : normalizePNode threshold now pod = Except.ok n) :
    n = { pubkey := strOr pod.pubkey ""
          status :=
            if pod.last_seen_timestamp ≥ (now : ℚ) - threshold then PNodeStatus.online
            else PNodeStatus.offline
          version := strOr pod.version "unknown"
          storageUsed := numOr0 pod.storage_used
          storageTotal :=
            if numTruthy pod.storage_committed then numOr0 pod.storage_committed
            else if numTruthy pod.storage_used ∧ numTruthy pod.storage_usage_percent then
              if numOr0 pod.storage_usage_percent > 0 ∧
                  numOr0 pod.storage_usage_percent ≤ 100 then
                (jsRound (numOr0 pod.storage_used * 100 /
                  numOr0 pod.storage_usage_percent) : ℚ)
              else 0
            else 0
          uptime :=
            if numOr0 pod.uptime > 100 then
              jsMin 100 (numOr0 pod.uptime / (30 * 24 * 60 * 60) * 100)
            else if numOr0 pod.uptime < 0 then 0
            else numOr0 pod.uptime
          ip := strOr pod.address ""
          lastSeen := pod.last_seen_timestamp * 1000
          address := pod.address
          isPublic := pod.is_public
          rpcPort := pod.rpc_port
          storageCommitted := pod.storage_committed
          storageUsagePercent := pod.storage_usage_percent
          lastSeenTimestamp := some pod.last_seen_timestamp
          ramUsed := none
          ramTotal := none } := by
  rw [normalizePNode_eq] at h
  by_cases hg : maxEcmaTimeMs < pod.last_seen_timestamp * 1000 ∨
      pod.last_seen_timestamp * 1000 < -maxEcmaTimeMs
  · rw [if_pos hg] at h
    exact absurd h (by simp)
  · rw [if_neg hg] at h
    injection h with h1
    exact h1.symm

/-- C7: a node is classified online exactly when
`now - last_seen_timestamp ≤ ONLINE_THRESHOLD_SECONDS`; with the default
threshold 300, a record last seen `now - 300` normalizes to online and one
last seen `now - 301` normalizes to offline. -/
theorem online_iff_within_threshold :
    (∀ (threshold : ℚ) (now : ℤ) (pod : Pod) (n : PNode),
        normalizePNode threshold now pod = Except.ok n →
        (n.status = PNodeStatus.online ↔
          (now : ℚ) - pod.last_seen_timestamp ≤ threshold)) ∧
    (normalizePNode 300 nowT podSeen300).map PNode.status =
      Except.ok PNodeStatus.online ∧
    (normalizePNode 300 nowT podSeen301).map PNode.status =
      Except.ok PNodeStatus.offline := by
  refine ⟨?_, ?_, ?_⟩
  · intro th now pod n h
    rw [normalizePNode_ok_inv h]
    dsimp only
    split_ifs with hc
    · exact iff_of_true rfl (by linarith [hc])
    · refine iff_of_false (by simp) ?_
      intro hle
      exact hc (by linarith)
  · rw [normalizePNode_eq, if_neg (by norm_num [podSeen300, maxEcmaTimeMs])]
    simp only [Except.map]
    congr 1
    norm_num [podSeen300, nowT]
  · rw [normalizePNode_eq, if_neg (by norm_num [podSeen301, maxEcmaTimeMs])]
    simp only [Except.map]
    congr 1
    norm_num [podSeen301, nowT]

/-- Witness for C7's general part: applying it to the boundary record
`podSeen300` (online at exactly the threshold). -/
theorem online_iff_within_threshold_witness :
    ∃ n : PNode, normalizePNode 300 nowT podSeen300 = Except.ok n ∧
      (n.status = PNodeStatus.online ↔ (nowT : ℚ) - podSeen300.last_seen_timestamp ≤ 300) :=
  match hn : normalizePNode 300 nowT podSeen300 with
  | Except.ok n => ⟨n, rfl, online_iff_within_threshold.1 300 nowT podSeen300 n hn⟩
  | Except.error e => by
      rw [normalizePNode_eq, if_neg (by norm_num [podSeen300, maxEcmaTimeMs])] at hn
      exact absurd hn (by simp)

/-- C4: normalized uptime rescales raw values above 100 against the 30-day
window (2,592,000 s), keeps values in [0, 100] unchanged, clamps negatives
to 0, and always lands in [0, 100]. -/
theorem uptime_normalization :
    ∀ (threshold : ℚ) (now : ℤ) (pod : Pod) (n : PNode),
      normalizePNode threshold now pod = Except.ok n →
      (0 ≤ n.uptime ∧ n.uptime ≤ 100) ∧
      (∀ v : ℚ, pod.uptime = some v →
        (v > 100 → n.uptime = jsMin 100 (v / 2592000 * 100)) ∧
        (0 ≤ v → v ≤ 100 → n.uptime = v) ∧
        (v < 0 → n.uptime = 0)) := by
  intro th now pod n h
  rw [normalizePNode_ok_inv h]
  dsimp only
  constructor
  · split_ifs with h1 h2
    · constructor
      · refine le_jsMin (by norm_num) ?_
        have hd : (0 : ℚ) ≤ numOr0 pod.uptime / (30 * 24 * 60 * 60) :=
          div_nonneg (by linarith) (by norm_num)
        nlinarith
      · exact jsMin_le_left _ _
    · norm_num
    · constructor
      · exact le_of_not_lt h2
      · exact le_of_not_lt h1
  · intro v hv
    rw [hv, numOr0_some]
    refine ⟨?_, ?_, ?_⟩
    · intro hgt
      rw [if_pos hgt]
      norm_num
    · intro h0 h100
      rw [if_neg (by linarith), if_neg (by linarith)]
    · intro hneg
      rw [if_neg (by linarith), if_pos hneg]

/-- Witness for C4 at the scenario record `podAbc` (raw uptime 43200 s):
its normalized uptime lies in [0, 100] and equals `min(100, 43200/2592000*100)`.
-/
theorem uptime_normalization_witness :
    ∃ n : PNode, normalizePNode 300 nowT podAbc = Except.ok n ∧
      (0 ≤ n.uptime ∧ n.uptime ≤ 100) ∧
      n.uptime = jsMin 100 ((43200 : ℚ) / 2592000 * 100) :=
  match hn : normalizePNode 300 nowT podAbc with
  | Except.ok n =>
    ⟨n, rfl, (uptime_normalization 300 nowT podAbc n hn).1,
      ((uptime_normalization 300 nowT podAbc n hn).2 43200 rfl).1 (by decide)⟩
  | Except.error e => by
      rw [normalizePNode_eq, if_neg (by norm_num [podAbc, maxEcmaTimeMs])] at hn
      exact absurd hn (by simp)

/-- C3 counterexample: for a record with `storage_committed = -1` (present
and truthy but not positive), `storage_used = 100`,
`storage_usage_percent = 50`, the code keeps the negative committed value
verbatim (storageTotal = -1), while the claim's priority rule ("present and
positive", else back-compute) demands `round(100 * 100 / 50) = 200`. -/
theorem storageTotal_priority_counterexample :
    (normalizePNode 300 nowT podNegCommitted).map PNode.storageTotal =
      Except.ok (-1 : ℚ) ∧
    claimStorageTotal podNegCommitted = 200 ∧
    ((-1 : ℚ) ≠ 200) := by
  refine ⟨?_, ?_, by norm_num⟩
  · rw [normalizePNode_eq, if_neg (by norm_num [podNegCommitted, maxEcmaTimeMs])]
    simp only [Except.map]
    congr 1
  · rw [claimStorageTotal]
    norm_num [podNegCommitted, backComputedStorageTotal, numOr0, jsRound, jsFloor_eq]

/-- C3 amended: `normalizePNode` resolves `storageTotal` with this priority:
the explicit committed-storage field if it is present and NONZERO (taken
verbatim, even when negative); otherwise
`round(storage_used * 100 / storage_usage_percent)` when
`storage_usage_percent` lies in (0, 100]; otherwise 0. -/
theorem storageTotal_resolution_amended :
    ∀ (threshold : ℚ) (now : ℤ) (pod : Pod) (n : PNode),
      normalizePNode threshold now pod = Except.ok n →
      n.storageTotal = amendedStorageTotal pod := by
  intro th now pod n h
  rw [normalizePNode_ok_inv h]
  dsimp only
  have hback :
      (if numTruthy pod.storage_used ∧ numTruthy pod.storage_usage_percent then
        if numOr0 pod.storage_usage_percent > 0 ∧
            numOr0 pod.storage_usage_percent ≤ 100 then
          ((jsRound (numOr0 pod.storage_used * 100 /
            numOr0 pod.storage_usage_percent)) : ℚ)
        else 0
      else 0) = backComputedStorageTotal pod := by
    rw [backComputedStorageTotal]
    by_cases hup : numTruthy pod.storage_used = true ∧
        numTruthy pod.storage_usage_percent = true
    · rw [if_pos hup]
    · rw [if_neg hup]
      rcases Decidable.not_and_iff_or_not.mp hup with hu | hp
      · have hu0 : numOr0 pod.storage_used = 0 := by
          rcases hq : pod.storage_used with _ | q
          · rfl
          · have hq0 : q = 0 := by
              by_contra hne
              exact hu (by rw [hq]; exact (numTruthy_some q).mpr hne)
            rw [numOr0_some]
            exact hq0
        rw [hu0]
        by_cases hcond : numOr0 pod.storage_usage_percent > 0 ∧
            numOr0 pod.storage_usage_percent ≤ 100
        · rw [if_pos hcond]
          norm_num [jsRound, jsFloor_eq]
        · rw [if_neg hcond]
      · have hp0 : numOr0 pod.storage_usage_percent = 0 := by
          rcases hq : pod.storage_usage_percent with _ | q
          · rfl
          · have hq0 : q = 0 := by
              by_contra hne
              exact hp (by rw [hq]; exact (numTruthy_some q).mpr hne)
            rw [numOr0_some]
            exact hq0
        rw [hp0]
        norm_num
  rcases hc : pod.storage_committed with _ | c
  · rw [amendedStorageTotal]
    simp only [hc]
    rw [if_neg (by simp [numTruthy])]
    exact hback
  · by_cases hc0 : c = 0
    · subst hc0
      rw [amendedStorageTotal]
      simp only [hc]
      rw [if_neg (by simp [numTruthy])]
      rw [hback]
      rw [if_neg (by simp)]
    · rw [amendedStorageTotal]
      simp only [hc]
      rw [if_pos ((numTruthy_some c).mpr hc0)]
      rw [if_pos hc0]
      rfl

/-- Witness for the amended C3 at `podNegCommitted`: the code's storage total
equals the amended rule's value (-1). -/
theorem storageTotal_resolution_amended_witness :
    ∃ n : PNode, normalizePNode 300 nowT podNegCommitted = Except.ok n ∧
      n.storageTotal = amendedStorageTotal podNegCommitted :=
  match hn : normalizePNode 300 nowT podNegCommitted with
  | Except.ok n =>
    ⟨n, rfl, storageTotal_resolution_amended 300 nowT podNegCommitted n hn⟩
  | Except.error e => by
      rw [normalizePNode_eq,
        if_neg (by norm_num [podNegCommitted, maxEcmaTimeMs])] at hn
      exact absurd hn (by simp)

/-- C5: `normalizePNode` is a pure total function of its input: for every
well-formed record (one whose `last_seen_timestamp`, in milliseconds, lies in
the ECMAScript-representable time range, so `Date#toISOString` cannot throw)
it returns a node, and a missing or empty pubkey normalizes to the empty
string so callers can filter it out. -/
theorem normalize_total_on_wellformed :
    ∀ (threshold : ℚ) (now : ℤ) (pod : Pod),
      ¬(maxEcmaTimeMs < pod.last_seen_timestamp * 1000 ∨
          pod.last_seen_timestamp * 1000 < -maxEcmaTimeMs) →
      (∃ n : PNode, normalizePNode threshold now pod = Except.ok n) ∧
      (∀ n : PNode, normalizePNode threshold now pod = Except.ok n →
        n.pubkey = pod.pubkey.getD "" ∧
        ((pod.pubkey = none ∨ pod.pubkey = some "") → n.pubkey = "")) := by
  intro th now pod hg
  constructor
  · exact ⟨_, by rw [normalizePNode_eq, if_neg hg]⟩
  · intro n h
    rw [normalizePNode_ok_inv h]
    dsimp only
    constructor
    · rcases pod.pubkey with _ | s
      · rfl
      · by_cases hs : s = ""
        · simp [strOr, hs]
        · simp [strOr, hs]
    · rintro (hp | hp) <;> simp [strOr, hp]

/-- Witness for C5 at `podX1` (well-formed, non-empty pubkey "x"). -/
theorem normalize_total_on_wellformed_witness :
    (∃ n : PNode, normalizePNode 300 nowT podX1 = Except.ok n) ∧
    (∀ n : PNode, normalizePNode 300 nowT podX1 = Except.ok n →
      n.pubkey = podX1.pubkey.getD "" ∧
      ((podX1.pubkey = none ∨ podX1.pubkey = some "") → n.pubkey = "")) :=
  normalize_total_on_wellformed 300 nowT podX1
    (by norm_num [podX1, maxEcmaTimeMs])

/-- C1: the per-node metric derivation reproduces the spec's health-score
formulas exactly — `calculateUptime24h` equals the spec's clamp formula,
`calculateHealthScore` equals the spec's weighted composite, a matched
pod/node pair yields exactly the spec-formula metrics, and the scenario
record (uptime 43200 s, 500 GB of 1 TB committed, seen 10 s ago) derives
uptime24h = 50, storageUtilization = 50, healthScore = 60.00, tier = Poor. -/
theorem metric_derivation_matches_spec :
    (∀ u : ℚ, calculateUptime24h u = specUptime24h u) ∧
    (∀ (u s : ℚ) (o : Bool), calculateHealthScore u s o = specHealthScore u s o) ∧
    (∀ (pod : Pod) (node : PNode),
        pod.pubkey = some node.pubkey → node.pubkey ≠ "" →
        computeNodeMetricsFromData [pod] [node] =
          [{ pubkey := node.pubkey
             healthScore :=
               specHealthScore (specUptime24h (numOr0 pod.uptime))
                 (specStorageUtilization (numOr0 pod.storage_used)
                   (numOr0 pod.storage_committed))
                 (node.status = PNodeStatus.online)
             uptime24h := specUptime24h (numOr0 pod.uptime)
             storageUtilization :=
               specStorageUtilization (numOr0 pod.storage_used)
                 (numOr0 pod.storage_committed)
             tier :=
               getNodeTier
                 (specHealthScore (specUptime24h (numOr0 pod.uptime))
                   (specStorageUtilization (numOr0 pod.storage_used)
                     (numOr0 pod.storage_committed))
                   (node.status = PNodeStatus.online)) }]) ∧
    computeNodeMetricsFromData [podAbc]
        (dedupByPubkey (normalizeFilter 300 nowT [podAbc])) =
      [{ pubkey := "abc", healthScore := 60, uptime24h := 50,
         storageUtilization := 50, tier := NodeTier.Poor }] := by
  have hu24 : ∀ u : ℚ, calculateUptime24h u = specUptime24h u := by
    intro u
    rw [calculateUptime24h, specUptime24h, specClamp]
    split_ifs with hneg
    · have hx : u / 86400 * 100 ≤ 0 := by
        have h1 : u / 86400 ≤ 0 := div_nonpos_of_nonpos_of_nonneg (by linarith) (by norm_num)
        nlinarith
      rw [jsMax, if_pos hx, jsMin, if_neg (by norm_num)]
    · rfl
  have hhs : ∀ (u s : ℚ) (o : Bool),
      calculateHealthScore u s o = specHealthScore u s o := fun _ _ _ => rfl
  refine ⟨hu24, hhs, ?_, ?_⟩
  · intro pod node h1 h2
    have hfind : List.find? (fun n => some node.pubkey = some n.pubkey) [node] =
        some node :=
      List.find?_cons_of_pos _ (by simp)
    simp only [computeNodeMetricsFromData, List.filterMap_cons, List.filterMap_nil,
      h1, hfind, Option.getD_some]
    rw [if_neg h2]
    simp only [hu24, hhs, specStorageUtilization]
  · have hnorm : normalizePNode 300 nowT podAbc = Except.ok nodeAbc := by
      rw [normalizePNode_eq, if_neg (by norm_num [podAbc, maxEcmaTimeMs])]
      congr 1
      simp [podAbc, nodeAbc, numTruthy, numOr0, strOr, PNode.mk.injEq, nowT]
      norm_num [jsMin]
    have hfilter : normalizeFilter 300 nowT [podAbc] = [nodeAbc] := by
      simp [normalizeFilter, hnorm, nodeAbc]
    have hdedup : dedupByPubkey [nodeAbc] = [nodeAbc] := by
      simp [dedupByPubkey, dedupLoop, nodeAbc]
    rw [hfilter, hdedup]
    have hfind : List.find? (fun n => podAbc.pubkey = some n.pubkey) [nodeAbc] =
        some nodeAbc :=
      List.find?_cons_of_pos _ (by simp [podAbc, nodeAbc])
    have e1 : calculateUptime24h (43200 : ℚ) = 50 := by
      norm_num [calculateUptime24h, jsMin, jsMax]
    have e2 : round2 ((500000000000 : ℚ) / 1000000000000 * 100) = 50 := by
      norm_num [round2, jsRound, jsFloor_eq]
    have e3 : calculateHealthScore 50 50 true = 60 := by
      norm_num [calculateHealthScore_eq, jsMin, jsMax, round2, jsRound, jsFloor_eq]
    have e4 : getNodeTier 60 = NodeTier.Poor := by norm_num [getNodeTier]
    have hpos : (0 : ℚ) < 1000000000000 := by norm_num
    simp only [computeNodeMetricsFromData, List.filterMap_cons, List.filterMap_nil,
      hfind]
    rw [if_neg (by simp [podAbc])]
    simp [podAbc, nodeAbc, numOr0, hpos, e1, e2, e3, e4]

theorem dedupLoop_mem :
    ∀ (l : List PNode) (seen : List String) (n : PNode),
      n ∈ dedupLoop l seen → n.pubkey ≠ "" ∧ n.pubkey ∉ seen := by
  intro l
  induction l with
  | nil => intro seen n h; simp [dedupLoop] at h
  | cons a rest ih =>
    intro seen n h
    simp only [dedupLoop] at h
    split_ifs at h with h1 h2
    · exact ih seen n h
    · exact ih seen n h
    · rcases List.mem_cons.mp h with rfl | hmem
      · exact ⟨h1, h2⟩
      · have hm := ih (a.pubkey :: seen) n hmem
        exact ⟨hm.1, fun hs => hm.2 (List.mem_cons_of_mem _ hs)⟩

theorem dedupLoop_pairwise :
    ∀ (l : List PNode) (seen : List String),
      (dedupLoop l seen).Pairwise (fun a b => a.pubkey ≠ b.pubkey) := by
  intro l
  induction l with
  | nil => intro seen; simp [dedupLoop]
  | cons a rest ih =>
    intro seen
    simp only [dedupLoop]
    split_ifs with h1 h2
    · exact ih seen
    · exact ih seen
    · refine List.Pairwise.cons ?_ (ih (a.pubkey :: seen))
      intro b hb hab
      exact (dedupLoop_mem rest (a.pubkey :: seen) b hb).2
        (hab ▸ List.mem_cons_self _ _)

theorem dedupLoop_sublist :
    ∀ (l : List PNode) (seen : List String), (dedupLoop l seen).Sublist l := by
  intro l
  induction l with
  | nil => intro seen; simp [dedupLoop]
  | cons a rest ih =>
    intro seen
    simp only [dedupLoop]
    split_ifs with h1 h2
    · exact (ih seen).cons _
    · exact (ih seen).cons _
    · exact (ih _).cons₂ _

theorem enrichNodeWithStats_pubkey (sc : StatsCache) (n : PNode) :
    (enrichNodeWithStats sc n).pubkey = n.pubkey := by
  unfold enrichNodeWithStats
  cases hs : sc ("node_stats_" ++ n.pubkey) with
  | none => rfl
  | some st =>
    cases hu : st.ram_used with
    | none => simp [hu]
    | some u =>
      cases ht : st.ram_total with
      | none => simp [hu, ht]
      | some t => simp [hu, ht]

/-- C6: every list returned by `getAllPNodes` on the discovery path has
pairwise-distinct, non-empty pubkeys, is a subsequence of the discovered list
(so surviving entries keep their first-occurrence order); and for two raw
records sharing pubkey "x" at different addresses, `getAllPNodes` returns
only the first while `getAllPNodesForMap` returns both. -/
theorem dedup_invariant_and_map_duplicates :
    (∀ (env : GossipEnv) (sc : StatsCache),
        (getAllPNodes none sc env).Pairwise (fun a b => a.pubkey ≠ b.pubkey) ∧
        (∀ n ∈ getAllPNodes none sc env, n.pubkey ≠ "") ∧
        (dedupByPubkey (discoverPNodesViaGossip env)).Sublist
          (discoverPNodesViaGossip env)) ∧
    getAllPNodes none scEmpty envDup = [nodeX1] ∧
    getAllPNodesForMap none scEmpty envDup = [nodeX1, nodeX2] := by
  have hnormX1 : normalizePNode 300 nowT podX1 = Except.ok nodeX1 := by
    rw [normalizePNode_eq, if_neg (by norm_num [podX1, maxEcmaTimeMs])]
    congr 1
    simp [podX1, nodeX1, numTruthy, numOr0, strOr, PNode.mk.injEq, nowT]
    norm_num
  have hnormX2 : normalizePNode 300 nowT podX2 = Except.ok nodeX2 := by
    rw [normalizePNode_eq, if_neg (by norm_num [podX2, maxEcmaTimeMs])]
    congr 1
    simp [podX2, nodeX2, numTruthy, numOr0, strOr, PNode.mk.injEq, nowT]
    norm_num
  have hfilterX : normalizeFilter 300 nowT [podX1, podX2] = [nodeX1, nodeX2] := by
    simp [normalizeFilter, hnormX1, hnormX2, nodeX1, nodeX2]
  refine ⟨?_, ?_, ?_⟩
  · intro env sc
    have hset : getAllPNodes none sc env =
        (dedupLoop (discoverPNodesViaGossip env) []).map (enrichNodeWithStats sc) := rfl
    refine ⟨?_, ?_, dedupLoop_sublist _ _⟩
    · rw [hset, List.pairwise_map]
      refine (dedupLoop_pairwise _ _).imp ?_
      intro a b hab
      simpa [enrichNodeWithStats_pubkey] using hab
    · intro n hn
      rw [hset] at hn
      rcases List.mem_map.mp hn with ⟨m, hm, rfl⟩
      rw [enrichNodeWithStats_pubkey]
      exact (dedupLoop_mem _ _ m hm).1
  · have hdiscover : discoverPNodesViaGossip envDup = [nodeX1, nodeX2] := by
      simp [discoverPNodesViaGossip, primaryNodes, envDup, hfilterX]
    rw [show getAllPNodes none scEmpty envDup =
        (dedupByPubkey (discoverPNodesViaGossip envDup)).map
          (enrichNodeWithStats scEmpty) from rfl,
      hdiscover]
    simp [dedupByPubkey, dedupLoop, nodeX1, nodeX2, enrichNodeWithStats, scEmpty]
  · simp [getAllPNodesForMap, envDup, hfilterX, enrichNodesWithCachedStats,
      enrichNodeWithStats, scEmpty]

/-- Witness for C6's universally quantified part at the duplicate-pubkey
environment: the returned list has pairwise-distinct pubkeys. -/
theorem dedup_invariant_and_map_duplicates_witness :
    (getAllPNodes none scEmpty envDup).Pairwise (fun a b => a.pubkey ≠ b.pubkey) :=
  (dedup_invariant_and_map_duplicates.1 envDup scEmpty).1

theorem seedLoop_all_error (threshold : ℚ) (now : ℤ) :
    ∀ seeds : List FetchResult, (∀ s ∈ seeds, s = Except.error ()) →
      seedLoop threshold now seeds = [] := by
  intro seeds
  induction seeds with
  | nil => intro h; rfl
  | cons a rest ih =>
    intro h
    have ha := h a (List.mem_cons_self _ _)
    subst ha
    simp only [seedLoop]
    exact ih fun s hs => h s (List.mem_cons_of_mem _ hs)

theorem seedLoop_all_empty (threshold : ℚ) (now : ℤ) :
    ∀ seeds : List FetchResult,
      (∀ s ∈ seeds, s = Except.error () ∨ s = Except.ok []) →
      seedLoop threshold now seeds = [] := by
  intro seeds
  induction seeds with
  | nil => intro h; rfl
  | cons a rest ih =>
    intro h
    have hrest := fun s hs => h s (List.mem_cons_of_mem _ hs)
    rcases h a (List.mem_cons_self _ _) with ha | ha <;> subst ha
    · simp only [seedLoop]
      exact ih hrest
    · simp only [seedLoop, normalizeFilter, List.filterMap_nil, List.isEmpty_nil,
        if_true]
      exact ih hrest

/-- C2 counterexample: with the primary endpoint's two calls and every
fallback seed throwing, `getAllPNodes` does return the empty list, but
`getAnalyticsSummary` does NOT return a zeroed summary without an exception:
the second (uncaught) `getPods` failure inside `getRawPodsForAnalytics`
propagates out of the service layer. -/
theorem analytics_summary_total_failure_counterexample :
    getAllPNodes none scEmpty envAllFail = [] ∧
    getAnalyticsSummary none none scEmpty envAllFail = Except.error () :=
  ⟨rfl, rfl⟩

/-- The zeroed analytics summary (all numeric fields 0, network health
"unstable", consensus version "unknown"). -/
theorem computeAnalyticsSummary_nil (threshold : ℚ) (now : ℤ) :
    computeAnalyticsSummary threshold now [] [] =
      { totalPNodes := 0, onlinePNodes := 0, onlinePercentage := 0,
        totalPods := 0, activePods := 0, averageUptime := 0,
        totalStorageUsed := 0, totalStorageCapacity := 0,
        totalStorageUsedTB := 0, totalStorageCapacityTB := 0,
        networkHealth := NetworkHealth.unstable,
        consensusVersion := "unknown" } := by
  simp [computeAnalyticsSummary, consensusVersionOf, versionCounts,
    calculateNetworkHealth, AnalyticsSummary.mk.injEq]
  norm_num

/-- C2 amended: on total upstream failure `getAllPNodes` returns `[]` and
`getAnalyticsSummary` PROPAGATES the exception (it does not return zeroed
fields); the zeroed summary is returned in the nearby situation where the
upstreams respond but report zero pods. -/
theorem analytics_total_failure_amended :
    (∀ (env : GossipEnv) (sc : StatsCache),
        env.withStats = Except.error () → env.podsPlain = Except.error () →
        (∀ s ∈ env.seeds, s = Except.error ()) →
        getAllPNodes none sc env = [] ∧
        getAnalyticsSummary none none sc env = Except.error ()) ∧
    (∀ (env : GossipEnv) (sc : StatsCache),
        env.withStats = Except.ok [] →
        (∀ s ∈ env.seeds, s = Except.error () ∨ s = Except.ok []) →
        getAnalyticsSummary none none sc env =
          Except.ok
            { totalPNodes := 0, onlinePNodes := 0, onlinePercentage := 0,
              totalPods := 0, activePods := 0, averageUptime := 0,
              totalStorageUsed := 0, totalStorageCapacity := 0,
              totalStorageUsedTB := 0, totalStorageCapacityTB := 0,
              networkHealth := NetworkHealth.unstable,
              consensusVersion := "unknown" }) := by
  constructor
  · intro env sc hw hp hs
    have hdisc : discoverPNodesViaGossip env = [] := by
      simp [discoverPNodesViaGossip, primaryNodes, hw, hp,
        seedLoop_all_error _ _ _ hs]
    have hall : getAllPNodes none sc env = [] := by
      rw [show getAllPNodes none sc env =
          (dedupByPubkey (discoverPNodesViaGossip env)).map
            (enrichNodeWithStats sc) from rfl,
        hdisc]
      rfl
    refine ⟨hall, ?_⟩
    have hraw : getRawPodsForAnalytics none env = Except.error () := by
      simp [getRawPodsForAnalytics, hw, hp]
    simp [getAnalyticsSummary, hraw]
  · intro env sc hw hs
    have hdisc : discoverPNodesViaGossip env = [] := by
      simp [discoverPNodesViaGossip, primaryNodes, hw, normalizeFilter,
        seedLoop_all_empty _ _ _ hs]
    have hall : getAllPNodes none sc env = [] := by
      rw [show getAllPNodes none sc env =
          (dedupByPubkey (discoverPNodesViaGossip env)).map
            (enrichNodeWithStats sc) from rfl,
        hdisc]
      rfl
    have hraw : getRawPodsForAnalytics none env = Except.ok [] := by
      simp [getRawPodsForAnalytics, hw]
    simp [getAnalyticsSummary, hraw, hall, computeAnalyticsSummary_nil]

/-- Witness for the amended C2 at `envAllFail` (all upstreams throw) and
`envAllEmpty` (all upstreams report zero pods). -/
theorem analytics_total_failure_amended_witness :
    (getAllPNodes none scEmpty envAllFail = [] ∧
      getAnalyticsSummary none none scEmpty envAllFail = Except.error ()) ∧
    getAnalyticsSummary none none scEmpty envAllEmpty =
      Except.ok
        { totalPNodes := 0, onlinePNodes := 0, onlinePercentage := 0,
          totalPods := 0, activePods := 0, averageUptime := 0,
          totalStorageUsed := 0, totalStorageCapacity := 0,
          totalStorageUsedTB := 0, totalStorageCapacityTB := 0,
          networkHealth := NetworkHealth.unstable,
          consensusVersion := "unknown" } :=
  ⟨analytics_total_failure_amended.1 envAllFail scEmpty rfl rfl
      (by simp [envAllFail]),
    analytics_total_failure_amended.2 envAllEmpty scEmpty rfl
      (by simp [envAllEmpty])⟩

/-- C8: with the remote (Redis) tier down, `set` followed by `get` on the
same key within the same process and before the local entry's expiry returns
the written value via the in-process tier; both operations are total
functions of the cache state (nothing can raise). -/
theorem tiered_cache_local_fallback (V : Type) (c : TieredCache V) (key : String)
    (v : V) (ttlMs now nowLater : ℚ) (hdown : c.redis.available = false)
    (httl : nowLater < now + ttlMs) :
    TieredCache.get V (TieredCache.set V c key v ttlMs now) key nowLater =
      some v := by
  simp [TieredCache.get, TieredCache.set, getFromRedis, setInRedis,
    LocalCache.get, LocalCache.set, hdown, httl]

theorem cacheWitness_ttl : (2000 : ℚ) < 1000 + 30000 := by norm_num

/-- Witness for C8: a concrete down-remote cache, `set "k" 7` at t = 1000 ms
with a 30000 ms TTL, then `get "k"` at t = 2000 ms. -/
theorem tiered_cache_local_fallback_witness :
    TieredCache.get ℕ (TieredCache.set ℕ cacheDownNat "k" 7 30000 1000) "k" 2000 =
      some 7 :=
  tiered_cache_local_fallback ℕ cacheDownNat "k" 7 30000 1000 2000 rfl
    cacheWitness_ttl

/-- C9: invoking the pre-fetch job while a run is in flight returns
immediately with no per-node stats fetches and no state change; and starting
from an idle state the `isRunning` flag is false again after every exit path
(including the error path), so a later invocation can run. -/
theorem prefetch_no_overlap :
    (∀ (st : JobState) (res : Except Unit (List PNode)) (sc : StatsCache),
        st.isRunning = true → preFetchAllNodeStats st res sc = (st, 0)) ∧
    (∀ (res : Except Unit (List PNode)) (sc : StatsCache),
        (preFetchAllNodeStats ⟨false⟩ res sc).1.isRunning = false) := by
  constructor
  · intro st res sc h
    simp [preFetchAllNodeStats, h]
  · intro res sc
    cases res with
    | error e => rfl
    | ok nodes => rfl

/-- Witness for C9: a second invocation while running is a no-op, and a run
whose node-list fetch throws still ends with the flag cleared. -/
theorem prefetch_no_overlap_witness :
    preFetchAllNodeStats ⟨true⟩ (Except.error ()) scEmpty = (⟨true⟩, 0) ∧
    (preFetchAllNodeStats ⟨false⟩ (Except.error ()) scEmpty).1.isRunning = false :=
  ⟨prefetch_no_overlap.1 ⟨true⟩ (Except.error ()) scEmpty rfl,
    prefetch_no_overlap.2 (Except.error ()) scEmpty⟩

/-- Witness for C1's general pod/node part at the scenario pair
`podAbc`/`nodeAbc`. -/
theorem metric_derivation_matches_spec_witness :
    computeNodeMetricsFromData [podAbc] [nodeAbc] =
      [{ pubkey := nodeAbc.pubkey
         healthScore :=
           specHealthScore (specUptime24h (numOr0 podAbc.uptime))
             (specStorageUtilization (numOr0 podAbc.storage_used)
               (numOr0 podAbc.storage_committed))
             (nodeAbc.status = PNodeStatus.online)
         uptime24h := specUptime24h (numOr0 podAbc.uptime)
         storageUtilization :=
           specStorageUtilization (numOr0 podAbc.storage_used)
             (numOr0 podAbc.storage_committed)
         tier :=
           getNodeTier
             (specHealthScore (specUptime24h (numOr0 podAbc.uptime))
               (specStorageUtilization (numOr0 podAbc.storage_used)
                 (numOr0 podAbc.storage_committed))
               (nodeAbc.status = PNodeStatus.online)) }] :=
  metric_derivation_matches_spec.2.2.1 podAbc nodeAbc rfl (by decide)
